import Mathlib

/-!
Verification of the model-playground core of the Linear_Regression_Model-Regularization
repository (src/components/InteractivePlayground.tsx).

The source is TypeScript over JavaScript doubles.  We embed the numeric pipeline
shallowly over an arbitrary linear ordered field with a floor (instantiated at ℚ
for concrete witnesses), treating the trigonometric primitive Math.sin and the
constant Math.PI as parameters (sinf, pi) of every definition: each definition
mirrors the arithmetic of the corresponding source function exactly, with exact
field arithmetic in place of floating point (decimal literals of the source are
written as fractions: 0.5 = 1/2, 0.7 = 7/10, 0.05 = 1/20).

JavaScript division by zero produces NaN/Infinity, which a field cannot
represent; for the claims about division-by-zero guarding we additionally give
Option-valued variants of the two affected computations in which every division
whose denominator can vanish is checked, with Option.none marking exactly the
executions in which the JavaScript original performs a division by zero.
-/

namespace Playground

set_option linter.unusedSectionVars false
set_option linter.unusedVariables false

/-- A point (x, y), mirroring the DataPoint record of src/types. -/
structure DataPoint (α : Type) where
  x : α
  y : α
deriving DecidableEq

/-- The RegularizationType enum of src/types: None, L1, L2. -/
inductive RegularizationType where
  | none
  | l1
  | l2
deriving DecidableEq

/-- The pair returned by calculateModelFunction: a model function plus a
description string. -/
structure FittedModel (α : Type) where
  model : α → α
  description : String

variable {α : Type} [LinearOrderedField α] [FloorRing α]

/-- Fractional part x - Math.floor(x), as used by the pseudo-random generator. -/
def frac (x : α) : α := x - Int.floor x

/-- JavaScript Math.sign restricted to non-NaN inputs: -1, 0 or 1. -/
def jsSign (a : α) : α := if a < 0 then -1 else if 0 < a then 1 else 0

/-- The ground-truth function: trueFunction x = Math.sin(x * Math.PI * 0.5),
with Math.sin and Math.PI abstracted as sinf and pi. -/
def trueFunction (sinf : α → α) (pi x : α) : α := sinf (x * pi * (1 / 2))

/-- One call of the pseudoRandom closure of generateTrainingData.  The source
reads the current seed, computes x = Math.sin(currentSeed) * 10000 and returns
x - Math.floor(x); the post-increment currentSeed++ advances the stored seed to
currentSeed + 1 AFTER the read.  We return (sample, next seed state). -/
def pseudoRandom (sinf : α → α) (currentSeed : α) : α × α :=
  (frac (sinf currentSeed * 10000), currentSeed + 1)

/-- The list of the first m samples produced by repeatedly calling pseudoRandom
starting from seed state s, threading the seed state between calls. -/
def pseudoRandomList (sinf : α → α) (s : α) : ℕ → List α
  | 0 => []
  | Nat.succ m => (pseudoRandom sinf s).1 :: pseudoRandomList sinf (pseudoRandom sinf s).2 m

/-- generateTrainingData: the loop body at index i uses the i-th pseudoRandom
sample (the seed state is threaded through the iterations in order), computes
x = -2 + (4 * i) / (numPoints - 1), noise = (sample - 0.5) * noiseLevel * 2 and
y = trueFunction x + noise. -/
def generateTrainingData (sinf : α → α) (pi : α) (numPoints : ℕ)
    (noiseLevel seed : α) : List (DataPoint α) :=
  (List.zip (List.range numPoints) (pseudoRandomList sinf seed numPoints)).map
    fun p =>
      let x : α := -2 + (4 * (p.1 : α)) / ((numPoints : α) - 1)
      { x := x, y := trueFunction sinf pi x + (p.2 - 1 / 2) * noiseLevel * 2 }

/-- getLineData: samples the model over the closed interval
[domain.1, domain.2] at steps + 1 points x = domain.1 + i * stepSize,
stepSize = (domain.2 - domain.1) / steps, with y = model x. -/
def getLineData (model : α → α) (domain : α × α) (steps : ℕ) : List (DataPoint α) :=
  let stepSize : α := (domain.2 - domain.1) / (steps : α)
  (List.range (steps + 1)).map fun (i : ℕ) =>
    let x : α := domain.1 + (i : α) * stepSize
    { x := x, y := model x }

/-- The fixed underfitting description string of the complexity <= 1 branch. -/
def underfittingDescription : String :=
  "Underfitting: The model is too simple (a straight line) and cannot capture the underlying curved trend in the data, resulting in high error on both training and new data."

/-- The fixed overfitting description string. -/
def overfittingDescription : String :=
  "Overfitting: The model is overly complex. It learns the noise in the training data, not just the signal. This model will perform poorly on new, unseen data because it has memorized the training set\x27s quirks."

/-- The fixed good-fit description string of the None branch with complexity <= 5. -/
def goodFitDescription : String :=
  "Good Fit: The model complexity is appropriate for the data. It captures the underlying trend without fitting the noise, achieving good generalization."

/-- The fixed L1 description string. -/
def l1Description : String :=
  "L1 Regularization (Lasso) is applied. It penalizes the absolute size of coefficients. Notice how it can shrink the \x27wiggles\x27 (analogous to coefficients) to exactly zero, simplifying the model and performing feature selection."

/-- The fixed L2 description string. -/
def l2Description : String :=
  "L2 Regularization (Ridge) is applied. It penalizes the squared size of coefficients. It shrinks the \x27wiggles\x27 towards zero but rarely makes them exactly zero, preventing any single feature from dominating."

/-- The supplementary sentence appended when regStrength > 0, regType is not
None and complexity <= 5. -/
def lowComplexitySuffix : String :=
  " With a low-complexity model, regularization has a smaller effect but still helps prevent overfitting."

/-- The supplementary sentence appended when regStrength > 0, regType is not
None and complexity > 5. -/
def highComplexitySuffix : String :=
  " The regularization penalty effectively smooths the overfitted curve, leading to better generalization on unseen data."

/-- calculateModelFunction.  complexity <= 1: closed-form least-squares line
over the data.  Otherwise: ground truth plus a wiggle term
noise * 0.7 * sin(x * pi * complexity / 2), transformed per regularization
kind (L1 soft threshold by regStrength * 0.05, L2 division by
1 + regStrength * 0.5, None unchanged); the description is chosen per kind,
overridden to the overfitting text when regStrength = 0 for L1/L2, and a
complexity-dependent suffix is appended when regStrength > 0 and the kind is
not None. -/
def calculateModelFunction (sinf : α → α) (pi : α) (data : List (DataPoint α))
    (complexity : α) (regType : RegularizationType) (regStrength noise : α) :
    FittedModel α :=
  if complexity ≤ 1 then
    let n : α := data.length
    let sumX : α := (data.map fun p => p.x).sum
    let sumY : α := (data.map fun p => p.y).sum
    let sumXY : α := (data.map fun p => p.x * p.y).sum
    let sumX2 : α := (data.map fun p => p.x * p.x).sum
    let m : α := (n * sumXY - sumX * sumY) / (n * sumX2 - sumX * sumX)
    let b : α := (sumY - m * sumX) / n
    { model := fun x => m * x + b, description := underfittingDescription }
  else
    let base : FittedModel α :=
      match regType with
      | RegularizationType.l1 =>
          { model := fun x =>
              let wiggle := noise * (7 / 10) * sinf (x * pi * complexity / 2)
              let regularizedWiggle :=
                jsSign wiggle * max 0 (|wiggle| - regStrength * (1 / 20))
              trueFunction sinf pi x + regularizedWiggle,
            description :=
              if regStrength = 0 then overfittingDescription else l1Description }
      | RegularizationType.l2 =>
          { model := fun x =>
              let wiggle := noise * (7 / 10) * sinf (x * pi * complexity / 2)
              let regularizedWiggle := wiggle / (1 + regStrength * (1 / 2))
              trueFunction sinf pi x + regularizedWiggle,
            description :=
              if regStrength = 0 then overfittingDescription else l2Description }
      | RegularizationType.none =>
          { model := fun x =>
              let wiggle := noise * (7 / 10) * sinf (x * pi * complexity / 2)
              trueFunction sinf pi x + wiggle,
            description :=
              if 5 < complexity then overfittingDescription else goodFitDescription }
    if 0 < regStrength ∧ regType ≠ RegularizationType.none then
      { model := base.model,
        description := base.description ++
          (if complexity ≤ 5 then lowComplexitySuffix else highComplexitySuffix) }
    else base

/-- Checked division: Option.none exactly when the JavaScript division a / b
has b = 0 and therefore produces NaN or Infinity. -/
def divChecked (a b : α) : Option α := if b = 0 then Option.none else Option.some (a / b)

/-- generateTrainingData with the x-step division (4 * i) / (numPoints - 1)
checked: Option.none marks the executions in which the JavaScript original
divides by zero (numPoints = 1) and fills the output with NaN x-values. -/
def generateTrainingDataChecked (sinf : α → α) (pi : α) (numPoints : ℕ)
    (noiseLevel seed : α) : Option (List (DataPoint α)) :=
  (List.zip (List.range numPoints) (pseudoRandomList sinf seed numPoints)).mapM
    fun p =>
      (divChecked (4 * (p.1 : α)) ((numPoints : α) - 1)).map fun q =>
        let x : α := -2 + q
        { x := x, y := trueFunction sinf pi x + (p.2 - 1 / 2) * noiseLevel * 2 }

/-- The slope/intercept computation of the complexity <= 1 branch of
calculateModelFunction with both divisions checked: Option.none marks the
executions in which the JavaScript original divides by zero (coincident
x-values make the slope denominator n * sumX2 - sumX * sumX vanish) and
propagates NaN into the returned line. -/
def linearFitChecked (data : List (DataPoint α)) : Option (α × α) :=
  let n : α := data.length
  let sumX : α := (data.map fun p => p.x).sum
  let sumY : α := (data.map fun p => p.y).sum
  let sumXY : α := (data.map fun p => p.x * p.y).sum
  let sumX2 : α := (data.map fun p => p.x * p.x).sum
  match divChecked (n * sumXY - sumX * sumY) (n * sumX2 - sumX * sumX) with
  | Option.none => Option.none
  | Option.some m =>
      match divChecked (sumY - m * sumX) n with
      | Option.none => Option.none
      | Option.some b => Option.some (m, b)

/-! ### Helper lemmas -/

theorem jsSign_mul_abs (a : α) : jsSign a * |a| = a := by
  rcases lt_trichotomy a 0 with h | h | h
  · simp [jsSign, h, abs_of_neg h]
  · simp [jsSign, h]
  · simp [jsSign, h, not_lt.mpr h.le, abs_of_pos h]

theorem pseudoRandomList_eq_map (sinf : α → α) (s : α) (m : ℕ) :
    pseudoRandomList sinf s m
      = (List.range m).map fun (k : ℕ) => frac (sinf (s + (k : α)) * 10000) := by
  induction m generalizing s with
  | zero => rfl
  | succ m ih =>
      rw [pseudoRandomList, List.range_succ_eq_map, List.map_cons, ih]
      simp only [pseudoRandom, List.map_map]
      congr 1
      · norm_num
      · apply List.map_congr_left
        intro k _
        have h1 : s + 1 + (k : α) = s + (((k + 1 : ℕ) : α)) := by push_cast; ring
        simp only [Function.comp_apply, Nat.succ_eq_add_one, h1]

theorem pseudoRandomList_length (sinf : α → α) (s : α) (m : ℕ) :
    (pseudoRandomList sinf s m).length = m := by
  rw [pseudoRandomList_eq_map]; simp

theorem generateTrainingData_eq_map (sinf : α → α) (pi : α) (numPoints : ℕ)
    (noiseLevel seed : α) :
    generateTrainingData sinf pi numPoints noiseLevel seed
      = (List.range numPoints).map fun (i : ℕ) =>
          let x : α := -2 + (4 * (i : α)) / ((numPoints : α) - 1)
          { x := x,
            y := trueFunction sinf pi x
              + (frac (sinf (seed + (i : α)) * 10000) - 1 / 2) * noiseLevel * 2 } := by
  rw [generateTrainingData, pseudoRandomList_eq_map]
  have hz : (List.range numPoints).zip
      ((List.range numPoints).map fun (k : ℕ) => frac (sinf (seed + (k : α)) * 10000))
      = (List.range numPoints).map
          fun (i : ℕ) => (i, frac (sinf (seed + (i : α)) * 10000)) := by
    have h2 := List.zip_map' (id : ℕ → ℕ)
      (fun (k : ℕ) => frac (sinf (seed + (k : α)) * 10000)) (List.range numPoints)
    simpa using h2
  rw [hz, List.map_map]
  rfl

theorem generateTrainingData_length (sinf : α → α) (pi : α) (numPoints : ℕ)
    (noiseLevel seed : α) :
    (generateTrainingData sinf pi numPoints noiseLevel seed).length = numPoints := by
  rw [generateTrainingData_eq_map]; simp

theorem generateTrainingData_getD (sinf : α → α) (pi : α) (numPoints : ℕ)
    (noiseLevel seed : α) (i : ℕ) (d : DataPoint α) (h : i < numPoints) :
    (generateTrainingData sinf pi numPoints noiseLevel seed).getD i d
      = let x : α := -2 + (4 * (i : α)) / ((numPoints : α) - 1)
        { x := x,
          y := trueFunction sinf pi x
            + (frac (sinf (seed + (i : α)) * 10000) - 1 / 2) * noiseLevel * 2 } := by
  rw [generateTrainingData_eq_map, List.getD_eq_getElem?_getD, List.getElem?_map,
    List.getElem?_range h]
  rfl

theorem getLineData_length (model : α → α) (domain : α × α) (steps : ℕ) :
    (getLineData model domain steps).length = steps + 1 := by
  simp [getLineData]

theorem getLineData_getD (model : α → α) (domain : α × α) (steps : ℕ)
    (i : ℕ) (d : DataPoint α) (h : i ≤ steps) :
    (getLineData model domain steps).getD i d
      = let x : α := domain.1 + (i : α) * ((domain.2 - domain.1) / (steps : α))
        { x := x, y := model x } := by
  rw [getLineData, List.getD_eq_getElem?_getD, List.getElem?_map,
    List.getElem?_range (Nat.lt_succ_of_le h)]
  rfl

theorem sum_map_const_of_mem {β : Type} (data : List β) (f : β → α) (c : α)
    (h : ∀ p ∈ data, f p = c) : (data.map f).sum = (data.length : α) * c := by
  have hall : ∀ x ∈ data.map f, x = c := by
    intro x hx
    rcases List.mem_map.mp hx with ⟨p, hp, rfl⟩
    exact h p hp
  rw [List.sum_eq_card_nsmul (data.map f) c hall]
  simp [nsmul_eq_mul]

theorem calculateModelFunction_l1_model (sinf : α → α) (pi : α)
    (data : List (DataPoint α)) (complexity regStrength noise : α)
    (h : ¬ complexity ≤ 1) (x : α) :
    (calculateModelFunction sinf pi data complexity RegularizationType.l1 regStrength noise).model x
      = trueFunction sinf pi x
        + jsSign (noise * (7 / 10) * sinf (x * pi * complexity / 2))
          * max 0 (|noise * (7 / 10) * sinf (x * pi * complexity / 2)| - regStrength * (1 / 20)) := by
  simp only [calculateModelFunction, if_neg h]
  split
  · rfl
  · rfl

theorem calculateModelFunction_l2_model (sinf : α → α) (pi : α)
    (data : List (DataPoint α)) (complexity regStrength noise : α)
    (h : ¬ complexity ≤ 1) (x : α) :
    (calculateModelFunction sinf pi data complexity RegularizationType.l2 regStrength noise).model x
      = trueFunction sinf pi x
        + noise * (7 / 10) * sinf (x * pi * complexity / 2) / (1 + regStrength * (1 / 2)) := by
  simp only [calculateModelFunction, if_neg h]
  split
  · rfl
  · rfl

theorem calculateModelFunction_none_model (sinf : α → α) (pi : α)
    (data : List (DataPoint α)) (complexity regStrength noise : α)
    (h : ¬ complexity ≤ 1) (x : α) :
    (calculateModelFunction sinf pi data complexity RegularizationType.none regStrength noise).model x
      = trueFunction sinf pi x + noise * (7 / 10) * sinf (x * pi * complexity / 2) := by
  simp only [calculateModelFunction, if_neg h]
  split
  · rfl
  · rfl

theorem calculateModelFunction_l1_description (sinf : α → α) (pi : α)
    (data : List (DataPoint α)) (complexity regStrength noise : α)
    (h : ¬ complexity ≤ 1) :
    (calculateModelFunction sinf pi data complexity RegularizationType.l1 regStrength noise).description
      = if 0 < regStrength then
          l1Description ++ (if complexity ≤ 5 then lowComplexitySuffix else highComplexitySuffix)
        else if regStrength = 0 then overfittingDescription else l1Description := by
  simp only [calculateModelFunction, if_neg h]
  by_cases hs : 0 < regStrength
  · have hne : regStrength ≠ 0 := ne_of_gt hs
    simp [hs, hne]
  · simp [hs]

theorem calculateModelFunction_l2_description (sinf : α → α) (pi : α)
    (data : List (DataPoint α)) (complexity regStrength noise : α)
    (h : ¬ complexity ≤ 1) :
    (calculateModelFunction sinf pi data complexity RegularizationType.l2 regStrength noise).description
      = if 0 < regStrength then
          l2Description ++ (if complexity ≤ 5 then lowComplexitySuffix else highComplexitySuffix)
        else if regStrength = 0 then overfittingDescription else l2Description := by
  simp only [calculateModelFunction, if_neg h]
  by_cases hs : 0 < regStrength
  · have hne : regStrength ≠ 0 := ne_of_gt hs
    simp [hs, hne]
  · simp [hs]

theorem calculateModelFunction_none_description (sinf : α → α) (pi : α)
    (data : List (DataPoint α)) (complexity regStrength noise : α)
    (h : ¬ complexity ≤ 1) :
    (calculateModelFunction sinf pi data complexity RegularizationType.none regStrength noise).description
      = if 5 < complexity then overfittingDescription else goodFitDescription := by
  simp only [calculateModelFunction, if_neg h]
  simp

/-! ### Claim theorems -/

/-- Claim C4: for every complexity > 1 and fixed (complexity, regKind,
regStrength, noiseLevel), the fitted model function and the description
returned by calculateModelFunction are independent of the training-data
argument: any two training sets yield pointwise-equal model functions and
equal descriptions. -/
theorem c4_model_independent_of_data (sinf : α → α) (pi : α)
    (data1 data2 : List (DataPoint α)) (complexity : α)
    (regType : RegularizationType) (regStrength noise : α)
    (hc : 1 < complexity) :
    (∀ x, (calculateModelFunction sinf pi data1 complexity regType regStrength noise).model x
        = (calculateModelFunction sinf pi data2 complexity regType regStrength noise).model x)
    ∧ (calculateModelFunction sinf pi data1 complexity regType regStrength noise).description
        = (calculateModelFunction sinf pi data2 complexity regType regStrength noise).description := by
  have h : ¬ complexity ≤ 1 := not_le.mpr hc
  simp only [calculateModelFunction, if_neg h]
  exact ⟨fun _ => trivial, trivial⟩

/-- Witness for C4 at a concrete input: complexity 2 over ℚ, two different
training sets. -/
theorem c4_model_independent_of_data_witness :
    (∀ x : ℚ, (calculateModelFunction (fun _ => 0) 3 [⟨0, 0⟩] 2 RegularizationType.none 0 1).model x
        = (calculateModelFunction (fun _ => 0) 3 [⟨1, 5⟩, ⟨2, 7⟩] 2 RegularizationType.none 0 1).model x)
    ∧ (calculateModelFunction (fun _ : ℚ => 0) 3 [⟨0, 0⟩] 2 RegularizationType.none 0 1).description
        = (calculateModelFunction (fun _ : ℚ => 0) 3 [⟨1, 5⟩, ⟨2, 7⟩] 2 RegularizationType.none 0 1).description :=
  c4_model_independent_of_data (fun _ => 0) 3 [⟨0, 0⟩] [⟨1, 5⟩, ⟨2, 7⟩] 2
    RegularizationType.none 0 1 (by norm_num)

/-- Claim C5: generateTrainingData is deterministic: two calls with the same
numPoints, noiseLevel and seed (and the same sine primitive) produce identical
lists, element for element.  In the embedding the seed state is local to each
call, so the result is a pure function of the arguments. -/
theorem c5_generate_deterministic (sinf : α → α) (pi : α) (numPoints : ℕ)
    (noiseLevel seed : α) :
    generateTrainingData sinf pi numPoints noiseLevel seed
      = generateTrainingData sinf pi numPoints noiseLevel seed
    ∧ ∀ i : ℕ, (generateTrainingData sinf pi numPoints noiseLevel seed).getD i ⟨0, 0⟩
        = (generateTrainingData sinf pi numPoints noiseLevel seed).getD i ⟨0, 0⟩ :=
  ⟨rfl, fun _ => rfl⟩

/-- Claim C8: for every training set with at least two distinct x-values,
calculateModelFunction with complexity <= 1 returns the affine function
x -> m * x + b with m = (n * sumXY - sumX * sumY) / (n * sumX2 - sumX^2) and
b = (sumY - m * sumX) / n, together with the fixed underfitting description. -/
theorem c8_linear_fit_formulas (sinf : α → α) (pi : α) (data : List (DataPoint α))
    (complexity : α) (regType : RegularizationType) (regStrength noise : α)
    (hc : complexity ≤ 1)
    (hdist : ∃ p ∈ data, ∃ q ∈ data, p.x ≠ q.x) :
    (∀ x, (calculateModelFunction sinf pi data complexity regType regStrength noise).model x
      = (((data.length : α) * (data.map fun p => p.x * p.y).sum
            - (data.map fun p => p.x).sum * (data.map fun p => p.y).sum)
          / ((data.length : α) * (data.map fun p => p.x * p.x).sum
            - (data.map fun p => p.x).sum * (data.map fun p => p.x).sum)) * x
        + ((data.map fun p => p.y).sum
            - (((data.length : α) * (data.map fun p => p.x * p.y).sum
                - (data.map fun p => p.x).sum * (data.map fun p => p.y).sum)
              / ((data.length : α) * (data.map fun p => p.x * p.x).sum
                - (data.map fun p => p.x).sum * (data.map fun p => p.x).sum))
              * (data.map fun p => p.x).sum) / (data.length : α))
    ∧ (calculateModelFunction sinf pi data complexity regType regStrength noise).description
        = underfittingDescription := by
  simp only [calculateModelFunction, if_pos hc]
  exact ⟨fun _ => trivial, trivial⟩

/-- Witness for C8: a two-point training set with distinct x-values over ℚ,
complexity = 1. -/
theorem c8_linear_fit_formulas_witness :
    (∀ x : ℚ, (calculateModelFunction (fun _ => 0) 3 [⟨0, 0⟩, ⟨1, 1⟩] 1 RegularizationType.none 0 1).model x
      = ((([⟨0, 0⟩, ⟨1, 1⟩] : List (DataPoint ℚ)).length : ℚ)
            * (([⟨0, 0⟩, ⟨1, 1⟩] : List (DataPoint ℚ)).map fun p => p.x * p.y).sum
            - (([⟨0, 0⟩, ⟨1, 1⟩] : List (DataPoint ℚ)).map fun p => p.x).sum
              * (([⟨0, 0⟩, ⟨1, 1⟩] : List (DataPoint ℚ)).map fun p => p.y).sum)
          / ((([⟨0, 0⟩, ⟨1, 1⟩] : List (DataPoint ℚ)).length : ℚ)
              * (([⟨0, 0⟩, ⟨1, 1⟩] : List (DataPoint ℚ)).map fun p => p.x * p.x).sum
            - (([⟨0, 0⟩, ⟨1, 1⟩] : List (DataPoint ℚ)).map fun p => p.x).sum
              * (([⟨0, 0⟩, ⟨1, 1⟩] : List (DataPoint ℚ)).map fun p => p.x).sum) * x
        + ((([⟨0, 0⟩, ⟨1, 1⟩] : List (DataPoint ℚ)).map fun p => p.y).sum
            - ((([⟨0, 0⟩, ⟨1, 1⟩] : List (DataPoint ℚ)).length : ℚ)
                * (([⟨0, 0⟩, ⟨1, 1⟩] : List (DataPoint ℚ)).map fun p => p.x * p.y).sum
                - (([⟨0, 0⟩, ⟨1, 1⟩] : List (DataPoint ℚ)).map fun p => p.x).sum
                  * (([⟨0, 0⟩, ⟨1, 1⟩] : List (DataPoint ℚ)).map fun p => p.y).sum)
              / ((([⟨0, 0⟩, ⟨1, 1⟩] : List (DataPoint ℚ)).length : ℚ)
                  * (([⟨0, 0⟩, ⟨1, 1⟩] : List (DataPoint ℚ)).map fun p => p.x * p.x).sum
                - (([⟨0, 0⟩, ⟨1, 1⟩] : List (DataPoint ℚ)).map fun p => p.x).sum
                  * (([⟨0, 0⟩, ⟨1, 1⟩] : List (DataPoint ℚ)).map fun p => p.x).sum)
              * (([⟨0, 0⟩, ⟨1, 1⟩] : List (DataPoint ℚ)).map fun p => p.x).sum)
            / (([⟨0, 0⟩, ⟨1, 1⟩] : List (DataPoint ℚ)).length : ℚ))
    ∧ (calculateModelFunction (fun _ : ℚ => 0) 3 [⟨0, 0⟩, ⟨1, 1⟩] 1 RegularizationType.none 0 1).description
        = underfittingDescription :=
  c8_linear_fit_formulas (fun _ => 0) 3 [⟨0, 0⟩, ⟨1, 1⟩] 1 RegularizationType.none 0 1
    (by norm_num) ⟨⟨0, 0⟩, by simp, ⟨1, 1⟩, by simp, by norm_num⟩

/-- Claim C9: for every model function, domain (lo, hi) with lo < hi and step
count steps >= 1, getLineData returns exactly steps + 1 points, with strictly
increasing x-values, first x = lo, last x = hi, and y = model x at every
point. -/
theorem c9_sampleCurve_spec (model : α → α) (lo hi : α) (steps : ℕ)
    (hlo : lo < hi) (hs : 1 ≤ steps) :
    (getLineData model (lo, hi) steps).length = steps + 1
    ∧ (∀ i j : ℕ, i < j → j ≤ steps →
        ((getLineData model (lo, hi) steps).getD i ⟨0, 0⟩).x
          < ((getLineData model (lo, hi) steps).getD j ⟨0, 0⟩).x)
    ∧ ((getLineData model (lo, hi) steps).getD 0 ⟨0, 0⟩).x = lo
    ∧ ((getLineData model (lo, hi) steps).getD steps ⟨0, 0⟩).x = hi
    ∧ (∀ i : ℕ, i ≤ steps →
        ((getLineData model (lo, hi) steps).getD i ⟨0, 0⟩).y
          = model (((getLineData model (lo, hi) steps).getD i ⟨0, 0⟩).x)) := by
  have hsα : (0 : α) < (steps : α) := by exact_mod_cast Nat.pos_of_ne_zero (by omega)
  have hstep : (0 : α) < (hi - lo) / (steps : α) := div_pos (by linarith) hsα
  refine ⟨getLineData_length model (lo, hi) steps, ?_, ?_, ?_, ?_⟩
  · intro i j hij hj
    rw [getLineData_getD model (lo, hi) steps i ⟨0, 0⟩ (le_of_lt (lt_of_lt_of_le hij hj)),
      getLineData_getD model (lo, hi) steps j ⟨0, 0⟩ hj]
    have hcast : (i : α) < (j : α) := by exact_mod_cast hij
    have := mul_lt_mul_of_pos_right hcast hstep
    simpa using add_lt_add_left this lo
  · rw [getLineData_getD model (lo, hi) steps 0 ⟨0, 0⟩ (Nat.zero_le steps)]
    norm_num
  · rw [getLineData_getD model (lo, hi) steps steps ⟨0, 0⟩ (le_refl steps)]
    show lo + (steps : α) * ((hi - lo) / (steps : α)) = hi
    field_simp
  · intro i hi2
    rw [getLineData_getD model (lo, hi) steps i ⟨0, 0⟩ hi2]

/-- Witness for C9: the identity model on ℚ over (-2, 2) with 100 steps, the
reference scenario of the specification. -/
theorem c9_sampleCurve_spec_witness :
    (getLineData (fun t : ℚ => t) (-2, 2) 100).length = 100 + 1
    ∧ (∀ i j : ℕ, i < j → j ≤ 100 →
        ((getLineData (fun t : ℚ => t) (-2, 2) 100).getD i ⟨0, 0⟩).x
          < ((getLineData (fun t : ℚ => t) (-2, 2) 100).getD j ⟨0, 0⟩).x)
    ∧ ((getLineData (fun t : ℚ => t) (-2, 2) 100).getD 0 ⟨0, 0⟩).x = -2
    ∧ ((getLineData (fun t : ℚ => t) (-2, 2) 100).getD 100 ⟨0, 0⟩).x = 2
    ∧ (∀ i : ℕ, i ≤ 100 →
        ((getLineData (fun t : ℚ => t) (-2, 2) 100).getD i ⟨0, 0⟩).y
          = ((getLineData (fun t : ℚ => t) (-2, 2) 100).getD i ⟨0, 0⟩).x) :=
  c9_sampleCurve_spec (fun t : ℚ => t) (-2) 2 100 (by norm_num) (by norm_num)

/-- Claim C10: for every numPoints >= 2, noiseLevel and seed, the training set
has length numPoints and x-coordinates exactly -2 + 4 * i / (numPoints - 1);
in particular the first x is -2 and the last x is 2, independent of seed and
noiseLevel. -/
theorem c10_x_coordinates (sinf : α → α) (pi : α) (numPoints : ℕ)
    (noiseLevel seed : α) (hn : 2 ≤ numPoints) :
    (generateTrainingData sinf pi numPoints noiseLevel seed).length = numPoints
    ∧ (∀ i : ℕ, i < numPoints →
        ((generateTrainingData sinf pi numPoints noiseLevel seed).getD i ⟨0, 0⟩).x
          = -2 + (4 * (i : α)) / ((numPoints : α) - 1))
    ∧ ((generateTrainingData sinf pi numPoints noiseLevel seed).getD 0 ⟨0, 0⟩).x = -2
    ∧ ((generateTrainingData sinf pi numPoints noiseLevel seed).getD (numPoints - 1) ⟨0, 0⟩).x = 2 := by
  have h2 : (2 : α) ≤ (numPoints : α) := by exact_mod_cast hn
  have hc : ((numPoints : α) - 1) ≠ 0 := ne_of_gt (by linarith)
  refine ⟨generateTrainingData_length sinf pi numPoints noiseLevel seed, ?_, ?_, ?_⟩
  · intro i hi2
    rw [generateTrainingData_getD sinf pi numPoints noiseLevel seed i ⟨0, 0⟩ hi2]
  · rw [generateTrainingData_getD sinf pi numPoints noiseLevel seed 0 ⟨0, 0⟩ (by omega)]
    norm_num
  · rw [generateTrainingData_getD sinf pi numPoints noiseLevel seed (numPoints - 1) ⟨0, 0⟩ (by omega)]
    show -2 + 4 * ((numPoints - 1 : ℕ) : α) / ((numPoints : α) - 1) = 2
    rw [Nat.cast_sub (by omega)]
    rw [Nat.cast_one, mul_div_assoc, div_self hc]
    norm_num

/-- Witness for C10: numPoints = 30, the reference scenario, over ℚ. -/
theorem c10_x_coordinates_witness :
    (generateTrainingData (fun _ : ℚ => 0) 3 30 (1 / 2) 1).length = 30
    ∧ (∀ i : ℕ, i < 30 →
        ((generateTrainingData (fun _ : ℚ => 0) 3 30 (1 / 2) 1).getD i ⟨0, 0⟩).x
          = -2 + (4 * (i : ℚ)) / ((30 : ℚ) - 1))
    ∧ ((generateTrainingData (fun _ : ℚ => 0) 3 30 (1 / 2) 1).getD 0 ⟨0, 0⟩).x = -2
    ∧ ((generateTrainingData (fun _ : ℚ => 0) 3 30 (1 / 2) 1).getD (30 - 1) ⟨0, 0⟩).x = 2 := by
  have h := c10_x_coordinates (fun _ : ℚ => 0) 3 30 (1 / 2) 1 (by norm_num)
  exact_mod_cast h

/-- Counterexample to Claim C1 as stated: at complexity = 3 (> 1) with
regStrength = 0, the l1 kind returns the overfitting description while the
none kind returns the good-fit description, so the returned description
strings are not equal even though the claim asserts they are. -/
theorem c1_counterexample :
    (calculateModelFunction (fun _ : ℚ => 0) 3 [] 3 RegularizationType.l1 0 (1 / 2)).description
      ≠ (calculateModelFunction (fun _ : ℚ => 0) 3 [] 3 RegularizationType.none 0 (1 / 2)).description := by
  rw [calculateModelFunction_l1_description (fun _ : ℚ => 0) 3 [] 3 0 (1 / 2) (by norm_num),
    calculateModelFunction_none_description (fun _ : ℚ => 0) 3 [] 3 0 (1 / 2) (by norm_num)]
  norm_num
  decide

/-- Claim C1 (amended): for every complexity > 1, calculateModelFunction with
regStrength = 0 and regKind l1 or l2 returns a fitted function pointwise equal
to the one returned with regKind none; the description strings are equal
exactly when complexity > 5 (all kinds then give the overfitting text), while
for 1 < complexity <= 5 the none kind gives the good-fit text but l1/l2 give
the overfitting text. -/
theorem c1_zero_strength_amended (sinf : α → α) (pi : α) (data : List (DataPoint α))
    (complexity noise : α) (hc : 1 < complexity) :
    (∀ x, (calculateModelFunction sinf pi data complexity RegularizationType.l1 0 noise).model x
        = (calculateModelFunction sinf pi data complexity RegularizationType.none 0 noise).model x)
    ∧ (∀ x, (calculateModelFunction sinf pi data complexity RegularizationType.l2 0 noise).model x
        = (calculateModelFunction sinf pi data complexity RegularizationType.none 0 noise).model x)
    ∧ (5 < complexity →
        (calculateModelFunction sinf pi data complexity RegularizationType.l1 0 noise).description
          = (calculateModelFunction sinf pi data complexity RegularizationType.none 0 noise).description
        ∧ (calculateModelFunction sinf pi data complexity RegularizationType.l2 0 noise).description
          = (calculateModelFunction sinf pi data complexity RegularizationType.none 0 noise).description)
    ∧ (complexity ≤ 5 →
        (calculateModelFunction sinf pi data complexity RegularizationType.l1 0 noise).description
          = overfittingDescription
        ∧ (calculateModelFunction sinf pi data complexity RegularizationType.l2 0 noise).description
          = overfittingDescription
        ∧ (calculateModelFunction sinf pi data complexity RegularizationType.none 0 noise).description
          = goodFitDescription) := by
  have h : ¬ complexity ≤ 1 := not_le.mpr hc
  refine ⟨?_, ?_, ?_, ?_⟩
  · intro x
    rw [calculateModelFunction_l1_model sinf pi data complexity 0 noise h x,
      calculateModelFunction_none_model sinf pi data complexity 0 noise h x]
    rw [zero_mul, sub_zero, max_eq_right (abs_nonneg _), jsSign_mul_abs]
  · intro x
    rw [calculateModelFunction_l2_model sinf pi data complexity 0 noise h x,
      calculateModelFunction_none_model sinf pi data complexity 0 noise h x]
    norm_num
  · intro h5
    rw [calculateModelFunction_l1_description sinf pi data complexity 0 noise h,
      calculateModelFunction_l2_description sinf pi data complexity 0 noise h,
      calculateModelFunction_none_description sinf pi data complexity 0 noise h]
    simp [h5, lt_irrefl]
  · intro h5
    rw [calculateModelFunction_l1_description sinf pi data complexity 0 noise h,
      calculateModelFunction_l2_description sinf pi data complexity 0 noise h,
      calculateModelFunction_none_description sinf pi data complexity 0 noise h]
    simp [not_lt.mpr h5, lt_irrefl]

/-- Witness for the amended C1 at complexity = 10, noise = 1/2 over ℚ. -/
theorem c1_zero_strength_amended_witness :
    (∀ x : ℚ, (calculateModelFunction (fun t => t) 3 [] 10 RegularizationType.l1 0 (1 / 2)).model x
        = (calculateModelFunction (fun t => t) 3 [] 10 RegularizationType.none 0 (1 / 2)).model x)
    ∧ (∀ x : ℚ, (calculateModelFunction (fun t => t) 3 [] 10 RegularizationType.l2 0 (1 / 2)).model x
        = (calculateModelFunction (fun t => t) 3 [] 10 RegularizationType.none 0 (1 / 2)).model x)
    ∧ ((5 : ℚ) < 10 →
        (calculateModelFunction (fun t : ℚ => t) 3 [] 10 RegularizationType.l1 0 (1 / 2)).description
          = (calculateModelFunction (fun t : ℚ => t) 3 [] 10 RegularizationType.none 0 (1 / 2)).description
        ∧ (calculateModelFunction (fun t : ℚ => t) 3 [] 10 RegularizationType.l2 0 (1 / 2)).description
          = (calculateModelFunction (fun t : ℚ => t) 3 [] 10 RegularizationType.none 0 (1 / 2)).description)
    ∧ ((10 : ℚ) ≤ 5 →
        (calculateModelFunction (fun t : ℚ => t) 3 [] 10 RegularizationType.l1 0 (1 / 2)).description
          = overfittingDescription
        ∧ (calculateModelFunction (fun t : ℚ => t) 3 [] 10 RegularizationType.l2 0 (1 / 2)).description
          = overfittingDescription
        ∧ (calculateModelFunction (fun t : ℚ => t) 3 [] 10 RegularizationType.none 0 (1 / 2)).description
          = goodFitDescription) :=
  c1_zero_strength_amended (fun t : ℚ => t) 3 [] 10 (1 / 2) (by norm_num)

/-- Counterexample to Claim C2 as stated: with the sine primitive t ↦ t / 3
and starting seed 0, the first sample returned by the generator is
frac(sin(0) * 10000) = 0, not frac(sin(0 + 1) * 10000) = 1/3 as the claim
(advance the seed first, then take the sine) would require. -/
theorem c2_counterexample :
    ¬ ((pseudoRandomList (fun t : ℚ => t / 3) 0 1).getD 0 0
        = frac ((fun t : ℚ => t / 3) (0 + 1) * 10000)) := by
  show ¬ (((pseudoRandom (fun t : ℚ => t / 3) 0).1
      :: pseudoRandomList (fun t : ℚ => t / 3) ((pseudoRandom (fun t : ℚ => t / 3) 0).2) 0).getD 0 0
    = frac ((fun t : ℚ => t / 3) (0 + 1) * 10000))
  norm_num [pseudoRandom, frac]

/-- Claim C2 (amended): the k-th sample (k >= 1) returned by the generator
started at seed s equals frac(sin(s + (k - 1)) * 10000): the k-th call reads
seed value s + (k - 1) and the post-increment advances the seed only after
the sine has been taken, so the first sample uses sin(s), not sin(s + 1). -/
theorem c2_post_increment_amended (sinf : α → α) (s : α) (m k : ℕ)
    (hk : 1 ≤ k) (hkm : k ≤ m) :
    (pseudoRandomList sinf s m).getD (k - 1) 0
      = frac (sinf (s + ((k - 1 : ℕ) : α)) * 10000) := by
  rw [pseudoRandomList_eq_map, List.getD_eq_getElem?_getD, List.getElem?_map,
    List.getElem?_range (by omega)]
  rfl

/-- Witness for the amended C2: first sample (k = 1) from seed 0 with the
sine primitive t ↦ t / 3 over ℚ. -/
theorem c2_post_increment_amended_witness :
    (pseudoRandomList (fun t : ℚ => t / 3) 0 1).getD (1 - 1) 0
      = frac ((fun t : ℚ => t / 3) (0 + ((1 - 1 : ℕ) : ℚ)) * 10000) :=
  c2_post_increment_amended (fun t : ℚ => t / 3) 0 1 1 (by norm_num) (by norm_num)

/-- Counterexample to Claim C3 as stated: numPoints = 1 is neither rejected
nor special-cased (the checked builder reports the division by zero in the
x-step formula) and the least-squares branch on a training set whose x-values
all coincide is not guarded (the checked fit reports the zero slope
denominator); in JavaScript both produce NaN. -/
theorem c3_counterexample :
    ¬ (generateTrainingDataChecked (fun _ : ℚ => 0) 3 1 0 0).isSome = true
    ∧ ¬ (linearFitChecked ([⟨1, 0⟩, ⟨1, 1⟩] : List (DataPoint ℚ))).isSome = true := by
  have h1 : generateTrainingDataChecked (fun _ : ℚ => 0) 3 1 0 0 = Option.none := by
    simp [generateTrainingDataChecked, pseudoRandomList, pseudoRandom, divChecked,
      List.range_succ, List.mapM, List.mapM.loop, sub_self]
  have h2 : linearFitChecked ([⟨1, 0⟩, ⟨1, 1⟩] : List (DataPoint ℚ)) = Option.none := by
    norm_num [linearFitChecked, divChecked]
  rw [h1, h2]
  simp

/-- Claim C3 (amended): the latent divisions by zero are NOT guarded.
generateTrainingData with numPoints = 1 always performs the zero-denominator
division (4 * i) / (numPoints - 1) (NaN x-values in JavaScript), and the
least-squares slope computation on any non-empty training set whose x-values
all coincide always performs the division by the vanished denominator
n * sumX2 - sumX * sumX (NaN slope in JavaScript). -/
theorem c3_unguarded_divisions :
    (∀ (sinf : α → α) (pi noiseLevel seed : α),
        generateTrainingDataChecked sinf pi 1 noiseLevel seed = Option.none)
    ∧ (∀ (data : List (DataPoint α)) (c : α), data ≠ [] → (∀ p ∈ data, p.x = c) →
        linearFitChecked data = Option.none) := by
  constructor
  · intro sinf pi noiseLevel seed
    simp [generateTrainingDataChecked, pseudoRandomList, pseudoRandom, divChecked,
      List.range_succ, List.mapM, List.mapM.loop, sub_self]
  · intro data c hne hall
    have hx : (data.map fun p => p.x).sum = (data.length : α) * c :=
      sum_map_const_of_mem data (fun p => p.x) c hall
    have hx2 : (data.map fun p => p.x * p.x).sum = (data.length : α) * (c * c) :=
      sum_map_const_of_mem data (fun p => p.x * p.x) (c * c)
        (fun p hp => by show p.x * p.x = c * c; rw [hall p hp])
    have hden : (data.length : α) * (data.map fun p => p.x * p.x).sum
        - (data.map fun p => p.x).sum * (data.map fun p => p.x).sum = 0 := by
      rw [hx, hx2]; ring
    simp only [linearFitChecked, hden, divChecked, if_pos]

/-- Witness for the amended C3: numPoints = 1 over ℚ, and a two-point set with
coincident x-values. -/
theorem c3_unguarded_divisions_witness :
    generateTrainingDataChecked (fun _ : ℚ => 0) 3 1 0 0 = Option.none
    ∧ linearFitChecked ([⟨1, 0⟩, ⟨1, 1⟩] : List (DataPoint ℚ)) = Option.none :=
  ⟨c3_unguarded_divisions.1 (fun _ : ℚ => 0) 3 0 0,
   c3_unguarded_divisions.2 ([⟨1, 0⟩, ⟨1, 1⟩] : List (DataPoint ℚ)) 1
     (by decide) (by decide)⟩

/-- Claim C6: with the sine primitive bounded by 1 in absolute value (as the
real sine is), noiseLevel >= 0, complexity > 1 and L1 strength large enough
that regStrength * 0.05 is at least the maximal wiggle amplitude
noiseLevel * 0.7, the fitted L1 model equals the ground truth at every point:
the soft threshold shrinks the whole wiggle to exactly zero. -/
theorem c6_l1_full_shrinkage (sinf : α → α) (pi : α) (data : List (DataPoint α))
    (complexity regStrength noise : α)
    (hsin : ∀ t, |sinf t| ≤ 1) (hnoise : 0 ≤ noise) (hc : 1 < complexity)
    (hstr : noise * (7 / 10) ≤ regStrength * (1 / 20)) :
    ∀ x, (calculateModelFunction sinf pi data complexity RegularizationType.l1 regStrength noise).model x
      = trueFunction sinf pi x := by
  intro x
  rw [calculateModelFunction_l1_model sinf pi data complexity regStrength noise
    (not_le.mpr hc) x]
  have hw : |noise * (7 / 10) * sinf (x * pi * complexity / 2)| ≤ noise * (7 / 10) := by
    rw [abs_mul]
    have h1 : |noise * (7 / 10)| = noise * (7 / 10) := abs_of_nonneg (by positivity)
    calc |noise * (7 / 10)| * |sinf (x * pi * complexity / 2)|
        ≤ |noise * (7 / 10)| * 1 := mul_le_mul_of_nonneg_left (hsin _) (abs_nonneg _)
      _ = noise * (7 / 10) := by rw [mul_one, h1]
  have hmax : max 0 (|noise * (7 / 10) * sinf (x * pi * complexity / 2)|
      - regStrength * (1 / 20)) = 0 := max_eq_left (by linarith)
  rw [hmax, mul_zero, add_zero]

/-- Witness for C6: constant sine primitive 1, noise = 1, regStrength = 14
over ℚ (14 * 1/20 = 7/10 = 1 * 7/10), complexity = 10, evaluated at 0. -/
theorem c6_l1_full_shrinkage_witness :
    (calculateModelFunction (fun _ : ℚ => 1) 3 [] 10 RegularizationType.l1 14 1).model 0
      = trueFunction (fun _ : ℚ => 1) 3 0 :=
  c6_l1_full_shrinkage (fun _ : ℚ => 1) 3 [] 10 14 1
    (fun t => by norm_num) (by norm_num) (by norm_num) (by norm_num) 0

/-- Claim C7: for complexity > 1, at every x where the unregularized wiggle
noise * 0.7 * sin(x * pi * complexity / 2) is non-zero, the L2 model with
regStrength = 10 deviates from the ground truth strictly less than the L2
model with regStrength = 0 does: the wiggle is divided by 6, so its amplitude
strictly shrinks. -/
theorem c7_l2_strict_shrinkage (sinf : α → α) (pi : α) (data : List (DataPoint α))
    (complexity noise x : α) (hc : 1 < complexity)
    (hw : noise * (7 / 10) * sinf (x * pi * complexity / 2) ≠ 0) :
    |(calculateModelFunction sinf pi data complexity RegularizationType.l2 10 noise).model x
        - trueFunction sinf pi x|
      < |(calculateModelFunction sinf pi data complexity RegularizationType.l2 0 noise).model x
        - trueFunction sinf pi x| := by
  rw [calculateModelFunction_l2_model sinf pi data complexity 10 noise (not_le.mpr hc) x,
    calculateModelFunction_l2_model sinf pi data complexity 0 noise (not_le.mpr hc) x]
  have h6 : (1 : α) + 10 * (1 / 2) = 6 := by norm_num
  have h1 : (1 : α) + 0 * (1 / 2) = 1 := by norm_num
  rw [h6, h1, div_one, add_sub_cancel_left, add_sub_cancel_left, abs_div]
  have h6' : |(6 : α)| = 6 := abs_of_pos (by norm_num)
  rw [h6']
  exact div_lt_self (abs_pos.mpr hw) (by norm_num)

/-- Witness for C7: constant sine primitive 1, noise = 1 over ℚ, complexity
= 10, at x = 0: the wiggle is 7/10, non-zero. -/
theorem c7_l2_strict_shrinkage_witness :
    |(calculateModelFunction (fun _ : ℚ => 1) 3 [] 10 RegularizationType.l2 10 1).model 0
        - trueFunction (fun _ : ℚ => 1) 3 0|
      < |(calculateModelFunction (fun _ : ℚ => 1) 3 [] 10 RegularizationType.l2 0 1).model 0
        - trueFunction (fun _ : ℚ => 1) 3 0| :=
  c7_l2_strict_shrinkage (fun _ : ℚ => 1) 3 [] 10 1 0 (by norm_num) (by norm_num)

end Playground
